import Mathlib

/-!
# Grain storage bin digital twin: layered-inventory ledger and unload algorithm

Shallow embedding of the core of `src/DT_V1_2.py`: the grain-layer record
type, the cylindrical-bin geometry, the FIFO unload algorithm
(`unload_grain`), the add-grain form logic (`inventory_form`), and the
moisture-profile computation of `create_bin_visualization`.

Python floats are modelled as real numbers (the spec states its numeric
properties "within floating-point tolerance", i.e. over ideal reals), and
`np.pi` as `Real.pi`.  A pandas `DataFrame` of layer records is modelled as
a `List Row` in row order; the empty `DataFrame` returned by
`fetch_inventory_data` for an empty bin has no columns at all, so indexing
it with `['Mass_tonnes']` (line 60 of the source) raises a `KeyError` —
that exceptional outcome is modelled explicitly by `UnloadResult.keyError`.
Likewise, the add-grain form's valid branch reads the module-level
`inventory_df` at line 134 before it is ever assigned (its only assignment
is at line 149, after the form, and Streamlit reruns the script in a fresh
namespace), so that branch raises a `NameError`, modelled explicitly by
`FormResult.nameError`.
-/

noncomputable section

/-- One layer record, with the flat record schema of the source
(`Date`, `Commodity`, `Mass_tonnes`, `Test_Weight_kg_m3`,
`Moisture_Content_percent`, `Height_m`). -/
structure Row where
  Date : String
  Commodity : String
  Mass_tonnes : ℝ
  Test_Weight_kg_m3 : ℝ
  Moisture_Content_percent : ℝ
  Height_m : ℝ

/-- Source line 34: `np.pi * (diameter / 2) ** 2 * height`.  The source
function computes this unconditionally, for any inputs. -/
def calculate_bin_capacity (diameter height : ℝ) : ℝ :=
  Real.pi * (diameter / 2) ^ 2 * height

/-- The error taxonomy of the spec's geometry component. -/
inductive GeometryError where
  | invalidDimension
deriving DecidableEq

/-- The source's capacity computation seen as a fallible operation: it never
fails, it always returns the formula value (there is no validation anywhere
in `calculate_bin_capacity`). -/
def capacityCode (diameter height : ℝ) : Except GeometryError ℝ :=
  Except.ok (calculate_bin_capacity diameter height)

/-- The capacity operation as the spec words it: `π·(diameter/2)²·height`,
failing with `InvalidDimension` if `diameter ≤ 0` or `height ≤ 0`.  Written
from the spec to be compared with `capacityCode`. -/
def capacitySpec (diameter height : ℝ) : Except GeometryError ℝ :=
  if diameter ≤ 0 ∨ height ≤ 0 then Except.error GeometryError.invalidDimension
  else Except.ok (Real.pi * (diameter / 2) ^ 2 * height)

/-- `inventory_df['Mass_tonnes'].sum()` (source line 60) on a `DataFrame`
that has the column. -/
def total_mass (rows : List Row) : ℝ :=
  (rows.map Row.Mass_tonnes).sum

/-- The loop of `unload_grain` (source lines 65–84) building
`preserved_rows`: rows seen while `remaining_mass <= 0` are passed through
unchanged; a row with `remaining_mass >= row['Mass_tonnes']` is discarded
whole; otherwise the row is copied with `Mass_tonnes -= remaining_mass` and
`Height_m` recomputed from the new mass, and the loop `break`s — so in that
branch no later row is ever appended to `preserved_rows`. -/
def unloadLoop (rows : List Row) (remaining_mass bin_diameter : ℝ) : List Row :=
  match rows with
  | [] => []
  | row :: rest =>
    if remaining_mass ≤ 0 then
      row :: unloadLoop rest remaining_mass bin_diameter
    else if row.Mass_tonnes ≤ remaining_mass then
      unloadLoop rest (remaining_mass - row.Mass_tonnes) bin_diameter
    else
      [{ row with
          Mass_tonnes := row.Mass_tonnes - remaining_mass,
          Height_m := (row.Mass_tonnes - remaining_mass) * 1000 /
            (row.Test_Weight_kg_m3 * Real.pi * (bin_diameter / 2) ^ 2) }]

/-- The possible outcomes of `unload_grain` (source lines 58–85). -/
inductive UnloadResult where
  /-- The fetched `DataFrame` is empty, so it has no `Mass_tonnes` column
  and line 60 raises a pandas `KeyError` before any check runs. -/
  | keyError : UnloadResult
  /-- `mass_to_unload > total_mass`: the `st.warning` with the shortfall is
  shown and the function returns early, persisting nothing (lines 61–63). -/
  | insufficient : ℝ → UnloadResult
  /-- The rebuilt inventory that `update_inventory_data` persists
  (lines 84–85). -/
  | ok : List Row → UnloadResult

/-- `unload_grain(user_id, bin_id, mass_to_unload, bin_diameter)`,
source lines 58–85, as a function of the fetched inventory. -/
def unload_grain (inventory_df : List Row) (mass_to_unload bin_diameter : ℝ) :
    UnloadResult :=
  match inventory_df with
  | [] => UnloadResult.keyError
  | _ :: _ =>
    if total_mass inventory_df < mass_to_unload then
      UnloadResult.insufficient (mass_to_unload - total_mass inventory_df)
    else
      UnloadResult.ok (unloadLoop inventory_df mass_to_unload bin_diameter)

/-- The inventory stored at `users/{user_id}/{bin_id}/inventory` after an
unload call: only the `UnloadResult.ok` outcome reaches
`update_inventory_data`; the early return and the uncaught exception leave
the stored records as they were. -/
def persistedAfterUnload (before : List Row) (r : UnloadResult) : List Row :=
  match r with
  | UnloadResult.ok newInventory => newInventory
  | _ => before

/-- The possible outcomes of submitting the add-grain form
(source lines 113–142). -/
inductive FormResult where
  /-- `test_weight > 0`: lines 117–131 compute `height_m` and build the new
  record (`new_grain_data` / `new_grain_df`), but line 134
  (`pd.concat([inventory_df, new_grain_df], ...)`) then raises `NameError`:
  at that point of the script `inventory_df` has never been assigned — its
  only module-level assignment is at line 149, after the form block, and
  Streamlit re-executes the whole script in a fresh namespace on every
  interaction.  The crash precedes the `update_inventory_data` call at
  line 137, so the constructed record (carried here) is never appended to
  the inventory or persisted. -/
  | nameError : Row → FormResult
  /-- `test_weight ≤ 0`: the `st.error` message of line 142 is shown and
  nothing else happens. -/
  | invalidInput : String → FormResult

/-- The add-grain form submission (source lines 113–142).  With
`test_weight > 0` it computes
`height_m = mass * 1000 / (np.pi * (bin_diameter / 2) ** 2 * test_weight)`
and builds the new record, then crashes with `NameError` at line 134 (see
`FormResult.nameError`); otherwise it shows the `st.error` message.  In
neither outcome is anything appended to the stored inventory. -/
def inventory_form (current_time commodity : String)
    (mass test_weight moisture_content bin_diameter : ℝ) : FormResult :=
  if 0 < test_weight then
    FormResult.nameError {
      Date := current_time,
      Commodity := commodity,
      Mass_tonnes := mass,
      Test_Weight_kg_m3 := test_weight,
      Moisture_Content_percent := moisture_content,
      Height_m := mass * 1000 / (Real.pi * (bin_diameter / 2) ^ 2 * test_weight) }
  else
    FormResult.invalidInput ("Test weight must be greater than zero to calculate the height.")

/-- The inventory stored after a form submission: the
`update_inventory_data` call at line 137 is unreachable from the form —
the `NameError` at line 134 precedes it, and the `test_weight ≤ 0` branch
never reaches it either — so the stored records are unchanged in both
outcomes. -/
def persistedAfterForm (before : List Row) (r : FormResult) : List Row :=
  match r with
  | FormResult.nameError _ => before
  | FormResult.invalidInput _ => before

/-- Python's `int()` on a float: truncation toward zero. -/
def py_int (x : ℝ) : ℤ :=
  if 0 ≤ x then Int.floor x else Int.ceil x

/-- The number of horizontal bands of the moisture heatmap
(`z = np.linspace(0, height, 100)`, `moisture_heatmap = np.zeros((100, 100))`). -/
def resolution : ℕ := 100

/-- `moisture_heatmap[start_index:end_index, :] = moisture_values[i]`
(source line 50) on the height-band axis: bands `j` with
`start ≤ j < stop` are overwritten with `v`. -/
def applyLayer (bands : ℕ → ℝ) (start stop : ℤ) (v : ℝ) : ℕ → ℝ :=
  fun j => if start ≤ (j : ℤ) ∧ (j : ℤ) < stop then v else bands j

/-- The loop of source lines 47–50: `i` is the layer's position, `acc` the
cumulative height of the layers before it (`grain_heights[i-1]`, taken as
`0` when `i = 0`). -/
def moistureHeatmapAux (height : ℝ) (layers : List Row) (i : ℕ) (acc : ℝ)
    (bands : ℕ → ℝ) : ℕ → ℝ :=
  match layers with
  | [] => bands
  | l :: rest =>
    let start : ℤ := if i = 0 then 0 else py_int (acc / height * 100)
    let stop : ℤ := py_int ((acc + l.Height_m) / height * 100)
    moistureHeatmapAux height rest (i + 1) (acc + l.Height_m)
      (applyLayer bands start stop l.Moisture_Content_percent)

/-- `create_bin_visualization(diameter, height, inventory)` (source lines
36–56), reduced to its observable inventory-dependent content: `None` for
an empty inventory, otherwise the height-band moisture array used as the
figure's `surfacecolor` (initially all zeros, then one slice-assignment per
layer). -/
def create_bin_visualization (diameter height : ℝ) (inventory : List Row) :
    Option (ℕ → ℝ) :=
  match inventory with
  | [] => none
  | _ :: _ => some (moistureHeatmapAux height inventory 0 0 (fun _ => 0))

/-- A concrete wheat layer used as evaluation input. -/
def rowA : Row :=
  { Date := "2024-01-01 10:00", Commodity := "Wheat", Mass_tonnes := 10,
    Test_Weight_kg_m3 := 700, Moisture_Content_percent := 14, Height_m := 2 }

/-- A concrete corn layer used as evaluation input. -/
def rowB : Row :=
  { Date := "2024-01-02 11:00", Commodity := "Corn", Mass_tonnes := 5,
    Test_Weight_kg_m3 := 720, Moisture_Content_percent := 18, Height_m := 1 }

/-- A concrete zero-mass layer (the add-grain form accepts mass `0.0`). -/
def rowZero : Row :=
  { Date := "2024-01-03 12:00", Commodity := "Oats", Mass_tonnes := 0,
    Test_Weight_kg_m3 := 650, Moisture_Content_percent := 12, Height_m := 0 }

/-- What the unload loop turns `rowA` into when 4 tonnes are taken out of it
with bin diameter 10. -/
def rowAReduced : Row :=
  { rowA with
      Mass_tonnes := 10 - 4,
      Height_m := (10 - 4) * 1000 / (700 * Real.pi * (10 / 2) ^ 2) }

end

/-- While `remaining_mass ≤ 0` the unload loop is a pass-through copy: every
row is preserved unchanged, in order. -/
theorem unloadLoop_nonpos (rows : List Row) (r d : ℝ) (h : r ≤ 0) :
    unloadLoop rows r d = rows := by
  induction rows with
  | nil => rfl
  | cons row rest ih => rw [unloadLoop, if_pos h, ih]

/-- C1: the claim fails on the code.  Unloading 4 tonnes from the two-layer
ledger `[rowA (10 t), rowB (5 t)]` partially consumes `rowA` (the remainder
4 is strictly between 0 and 10), but the resulting ledger is just the
reduced `rowA`: the `break` in the partial-consumption branch drops `rowB`
instead of preserving it. -/
theorem c1_unload_drops_layers_after_reduced_layer :
    unload_grain [rowA, rowB] 4 10 = UnloadResult.ok [rowAReduced] := by
  have h1 : ¬ (total_mass [rowA, rowB] < 4) := by
    norm_num [total_mass, rowA, rowB]
  rw [unload_grain, if_neg h1]
  rw [unloadLoop]
  rw [if_neg (by norm_num : ¬ ((4:ℝ) ≤ 0)),
    if_neg (by norm_num [rowA] : ¬ (rowA.Mass_tonnes ≤ (4:ℝ)))]
  rfl

/-- C2: mass conservation fails on the code.  Unloading 4 tonnes from the
15-tonne ledger `[rowA, rowB]` persists a ledger of total mass 6, not
`15 - 4 = 11`: the layer after the partially consumed one is lost. -/
theorem c2_unload_does_not_conserve_mass :
    total_mass (persistedAfterUnload [rowA, rowB] (unload_grain [rowA, rowB] 4 10)) = 6 ∧
      total_mass [rowA, rowB] - 4 ≠ (6 : ℝ) := by
  constructor
  · have h1 : ¬ (total_mass [rowA, rowB] < 4) := by
      norm_num [total_mass, rowA, rowB]
    rw [unload_grain, if_neg h1]
    rw [unloadLoop]
    rw [if_neg (by norm_num : ¬ ((4:ℝ) ≤ 0)),
      if_neg (by norm_num [rowA] : ¬ (rowA.Mass_tonnes ≤ (4:ℝ)))]
    norm_num [persistedAfterUnload, total_mass, rowA]
  · norm_num [total_mass, rowA, rowB]

/-- C3: on the empty ledger the code does not fail with
`InsufficientInventory`; line 60 (`inventory_df['Mass_tonnes']`) raises a
`KeyError` before the insufficiency check can run, so requesting 5 tonnes
from an empty bin crashes instead of reporting shortfall 5. -/
theorem c3_unload_on_empty_ledger_raises :
    unload_grain [] 5 10 = UnloadResult.keyError := rfl

/-- C4 counterexample: the claim as stated fails when the bottom layer has
mass 0 (a mass the add-grain form accepts).  Unloading exactly that mass
(0 tonnes) keeps the bottom layer in place instead of removing it. -/
theorem c4_zero_mass_bottom_layer_not_removed :
    unload_grain [rowZero, rowB] rowZero.Mass_tonnes 10 = UnloadResult.ok [rowZero, rowB] ∧
      ([rowZero, rowB] : List Row) ≠ [rowB] := by
  constructor
  · have h1 : ¬ (total_mass [rowZero, rowB] < rowZero.Mass_tonnes) := by
      norm_num [total_mass, rowZero, rowB]
    rw [unload_grain, if_neg h1]
    rw [unloadLoop, if_pos (by norm_num [rowZero] : rowZero.Mass_tonnes ≤ 0)]
    rw [unloadLoop_nonpos [rowB] rowZero.Mass_tonnes 10 (by norm_num [rowZero])]
  · simp

/-- C4 amended: for every ledger whose bottom layer has strictly positive
mass (and whose other layers have nonnegative masses), unloading exactly
the bottom layer's mass removes precisely that layer and returns all the
remaining layers unchanged, in their original order. -/
theorem c4_unload_exact_bottom_mass (row : Row) (rest : List Row) (d : ℝ)
    (hpos : 0 < row.Mass_tonnes) (hrest : ∀ r ∈ rest, 0 ≤ r.Mass_tonnes) :
    unload_grain (row :: rest) row.Mass_tonnes d = UnloadResult.ok rest := by
  have hsum : 0 ≤ (rest.map Row.Mass_tonnes).sum := by
    refine List.sum_nonneg ?_
    intro x hx
    obtain ⟨r, hr, rfl⟩ := List.mem_map.mp hx
    exact hrest r hr
  have hts : ¬ (total_mass (row :: rest) < row.Mass_tonnes) := by
    simp only [total_mass, List.map_cons, List.sum_cons, not_lt]
    linarith
  rw [unload_grain, if_neg hts]
  rw [unloadLoop, if_neg (not_le.mpr hpos), if_pos (le_refl row.Mass_tonnes), sub_self]
  rw [unloadLoop_nonpos rest 0 d le_rfl]

/-- C4 witness: unloading exactly 10 tonnes (the bottom layer's mass) from
`[rowA (10 t), rowB (5 t)]` leaves exactly `[rowB]`. -/
theorem c4_unload_exact_bottom_mass_witness :
    unload_grain [rowA, rowB] rowA.Mass_tonnes 10 = UnloadResult.ok [rowB] :=
  c4_unload_exact_bottom_mass rowA [rowB] 10 (by norm_num [rowA])
    (by
      intro r hr
      simp only [List.mem_singleton] at hr
      subst hr
      norm_num [rowB])

/-- C5: the claim fails on the code.  A fully valid submission (100 t of
wheat, test weight 750 > 0, diameter 10 > 0) computes the record — whose
`Height_m` does equal the claim's formula — but then crashes with
`NameError` at line 134 (`inventory_df` is undefined there), so no layer is
ever appended to the ledger or persisted: the form never produces a
layer. -/
theorem c5_valid_submission_crashes_before_append :
    inventory_form ("2024-01-01 10:00") ("Wheat") 100 750 14 10 =
        FormResult.nameError {
          Date := ("2024-01-01 10:00"), Commodity := ("Wheat"),
          Mass_tonnes := 100, Test_Weight_kg_m3 := 750,
          Moisture_Content_percent := 14,
          Height_m := 100 * 1000 / (Real.pi * (10 / 2) ^ 2 * 750) } ∧
      100 * 1000 / (Real.pi * (10 / 2) ^ 2 * 750)
        = 100 * 1000 / (750 * Real.pi * (10 / 2) ^ 2) := by
  constructor
  · rw [inventory_form, if_pos (by norm_num : (0:ℝ) < 750)]
  · ring

/-- C6 counterexample: the claim as stated fails on the code.  At diameter 0
the source's capacity computation returns the formula value instead of
failing with `InvalidDimension` — `calculate_bin_capacity` has no
validation at all. -/
theorem c6_capacity_not_validated :
    capacityCode 0 1 ≠ capacitySpec 0 1 := by
  rw [capacitySpec, if_pos (Or.inl (le_refl (0:ℝ)))]
  simp [capacityCode]

/-- C6 amended: the capacity computation returns
`π * (diameter / 2) ^ 2 * height`; for positive diameter and height this
agrees with the spec's formula, and for non-positive inputs it still
returns the same formula value — it never fails with `InvalidDimension`
(and performs no mutation). -/
theorem c6_capacity_formula_no_failure (d h : ℝ) :
    (0 < d → 0 < h → capacityCode d h = capacitySpec d h) ∧
      capacityCode d h ≠ Except.error GeometryError.invalidDimension := by
  constructor
  · intro hd hh
    rw [capacitySpec, if_neg (by push_neg; exact ⟨hd, hh⟩)]
    rfl
  · simp [capacityCode]

/-- C6 witness: at diameter 10 and height 20 the code's capacity agrees with
the spec's, and no `InvalidDimension` failure occurs. -/
theorem c6_capacity_formula_no_failure_witness :
    (capacityCode 10 20 = capacitySpec 10 20) ∧
      capacityCode 10 20 ≠ Except.error GeometryError.invalidDimension :=
  ⟨(c6_capacity_formula_no_failure 10 20).1 (by norm_num) (by norm_num),
    (c6_capacity_formula_no_failure 10 20).2⟩

/-- C7: submitting the add-grain form with `test_weight ≤ 0` fails with the
source's error message, and the persisted inventory is the unchanged input
ledger (no layer is added, nothing is written). -/
theorem c7_nonpositive_test_weight_rejected (inventory : List Row)
    (current_time commodity : String) (mass tw moisture d : ℝ) (htw : tw ≤ 0) :
    inventory_form current_time commodity mass tw moisture d =
        FormResult.invalidInput
          ("Test weight must be greater than zero to calculate the height.") ∧
      persistedAfterForm inventory
        (inventory_form current_time commodity mass tw moisture d) = inventory := by
  rw [inventory_form, if_neg (not_lt.mpr htw)]
  exact ⟨rfl, rfl⟩

/-- C7 witness: test weight 0 is rejected and the empty ledger stays
empty. -/
theorem c7_nonpositive_test_weight_rejected_witness :
    inventory_form ("2024-01-01 10:00") ("Wheat") 1 0 14 10 =
        FormResult.invalidInput
          ("Test weight must be greater than zero to calculate the height.") ∧
      persistedAfterForm []
        (inventory_form ("2024-01-01 10:00") ("Wheat") 1 0 14 10) = [] :=
  c7_nonpositive_test_weight_rejected [] ("2024-01-01 10:00") ("Wheat") 1 0 14 10
    (le_refl 0)

/-- C8: for a one-layer ledger whose layer spans the whole bin height, every
one of the 100 height bands of the moisture profile equals that layer's
moisture percent; and for the empty ledger the visualization is `None`. -/
theorem c8_single_full_layer_profile (d h : ℝ) (layer : Row)
    (hh : 0 < h) (hfull : layer.Height_m = h) :
    (∃ f, create_bin_visualization d h [layer] = some f ∧
        ∀ j < resolution, f j = layer.Moisture_Content_percent) ∧
      create_bin_visualization d h ([] : List Row) = none := by
  refine ⟨⟨moistureHeatmapAux h [layer] 0 0 (fun _ => 0), rfl, ?_⟩, rfl⟩
  intro j hj
  have hstop : py_int ((0 + layer.Height_m) / h * 100) = 100 := by
    rw [zero_add, hfull, div_self (ne_of_gt hh), one_mul]
    norm_num [py_int]
  rw [moistureHeatmapAux]
  simp only [if_pos rfl, hstop]
  rw [moistureHeatmapAux]
  rw [applyLayer]
  rw [if_pos ⟨Int.ofNat_nonneg j, by exact_mod_cast hj⟩]

/-- C8 witness: a single corn layer of height 1 m in a 1 m bin gives a
profile that is 18 % in every band, and the empty ledger gives `None`. -/
theorem c8_single_full_layer_profile_witness :
    (∃ f, create_bin_visualization 10 1 [rowB] = some f ∧
        ∀ j < resolution, f j = rowB.Moisture_Content_percent) ∧
      create_bin_visualization 10 1 ([] : List Row) = none :=
  c8_single_full_layer_profile 10 1 rowB (by norm_num) rfl

/-- C9: when the unload loop partially consumes a layer (the running
remainder is strictly between 0 and that layer's mass), the surviving copy
of the layer keeps its `Date`, `Commodity`, `Test_Weight_kg_m3` and
`Moisture_Content_percent` exactly; only `Mass_tonnes` and `Height_m`
change, to the reduced mass and the recomputed height. -/
theorem c9_reduced_layer_keeps_other_fields (row : Row) (rest : List Row)
    (remaining_mass d : ℝ) (h1 : 0 < remaining_mass)
    (h2 : remaining_mass < row.Mass_tonnes) :
    ∃ r', unloadLoop (row :: rest) remaining_mass d = [r'] ∧
      r'.Date = row.Date ∧ r'.Commodity = row.Commodity ∧
      r'.Test_Weight_kg_m3 = row.Test_Weight_kg_m3 ∧
      r'.Moisture_Content_percent = row.Moisture_Content_percent ∧
      r'.Mass_tonnes = row.Mass_tonnes - remaining_mass ∧
      r'.Height_m = (row.Mass_tonnes - remaining_mass) * 1000 /
        (row.Test_Weight_kg_m3 * Real.pi * (d / 2) ^ 2) := by
  refine ⟨{ row with
            Mass_tonnes := row.Mass_tonnes - remaining_mass,
            Height_m := (row.Mass_tonnes - remaining_mass) * 1000 /
              (row.Test_Weight_kg_m3 * Real.pi * (d / 2) ^ 2) },
    ?_, rfl, rfl, rfl, rfl, rfl, rfl⟩
  rw [unloadLoop, if_neg (not_le.mpr h1), if_neg (not_le.mpr h2)]

/-- C9 witness: taking 4 t out of the 10 t wheat layer `rowA` (bin diameter
10) keeps its date, commodity, test weight and moisture. -/
theorem c9_reduced_layer_keeps_other_fields_witness :
    ∃ r', unloadLoop [rowA] 4 10 = [r'] ∧
      r'.Date = rowA.Date ∧ r'.Commodity = rowA.Commodity ∧
      r'.Test_Weight_kg_m3 = rowA.Test_Weight_kg_m3 ∧
      r'.Moisture_Content_percent = rowA.Moisture_Content_percent ∧
      r'.Mass_tonnes = rowA.Mass_tonnes - 4 ∧
      r'.Height_m = (rowA.Mass_tonnes - 4) * 1000 /
        (rowA.Test_Weight_kg_m3 * Real.pi * (10 / 2) ^ 2) :=
  c9_reduced_layer_keeps_other_fields rowA [] 4 10 (by norm_num)
    (by norm_num [rowA])

/-- C10: on the empty ledger even a zero-mass unload does not succeed as a
no-op; line 60 raises a `KeyError` on the missing `Mass_tonnes` column
before the algorithm starts. -/
theorem c10_unload_zero_on_empty_ledger_raises :
    unload_grain [] 0 10 = UnloadResult.keyError := rfl
